import Mathlib

/-!
Verification of the conversation normalizer and completion invoker in
`backend/utils.py`.

The module holds one constant, `SYSTEM_PROMPT`, and one function,
`get_agent_response`, which (1) prepends a system-prompt message when the
incoming history is empty or does not start with a system message,
(2) sends the normalized history to the completion provider, (3) extracts
the first choice's text and strips surrounding whitespace, and (4) appends
the assistant reply to the normalized history.

The provider (`litellm.completion`) is external; it is modelled as a
function from the message list sent to an `Except`-valued completion, so
that provider failures propagate exactly as Python exceptions do.
Subscript/attribute failures during extraction (`completion["choices"][0]`
on an empty choice list, `.strip()` on a `None` content) are modelled as
the distinct errors `indexError` and `attributeError`.
-/

/-- A chat message: Python dict `{"role": ..., "content": ...}`. -/
structure Message where
  role : String
  content : String
deriving Repr, DecidableEq

/-- The `message` field of a provider choice; its `content` may be null. -/
structure ChoiceMessage where
  content : Option String
deriving Repr, DecidableEq

/-- One entry of the provider response's `choices` list. -/
structure Choice where
  message : ChoiceMessage
deriving Repr, DecidableEq

/-- The provider response object: `completion["choices"]`. -/
structure Completion where
  choices : List Choice
deriving Repr, DecidableEq

/-- Errors a call can surface: a failure raised by the provider itself, or
the Python `IndexError` / `AttributeError` raised while extracting the
reply from a malformed response. -/
inductive PyError where
  | providerError (msg : String)
  | indexError
  | attributeError
deriving Repr, DecidableEq

/-- The module-level constant `SYSTEM_PROMPT` of `backend/utils.py`
(Python juxtaposes the adjacent string literals into one string). -/
def SYSTEM_PROMPT : String :=
  "You are a a helpful kitchen assistance that specialized in creative recipes in tricky situations." ++
  "Present only one recipe at a time. If the user doesn\x27t specify what ingredients " ++
  "they have available, assume only basic ingredients are available." ++
  "Be descriptive in the steps of the recipe, so it is easy to follow." ++
  "Have variety in your recipes, don\x27t just recommend the same thing over and over." ++
  "You MUST suggest a complete recipe; don\x27t ask follow-up questions." ++
  "Mention the serving size in the recipe. If not specified, assume 2 people." ++
  "Make sure to include a nutritional information section in the recipe." ++
  "Make sure to include specific and precise measurements for the ingredients." ++
  "Make sure to include the steps for the recipe." ++
  "If the user doesn\x27t specify what ingredients they have available, assume only basic ingredients are available" ++
  "If the user doesn\x27t specify what cuisine they are looking for, assume they are looking for a recipe that is not specific to any cuisine." ++
  "If the user doesn\x27t specify what dietary restrictions they have, assume they have no dietary restrictions." ++
  "If the user doesn\x27t specify what skill level they are looking for, assume they are looking for a recipe that is beginner - intermediate level" ++
  "If the user doesn\x27t specify what time they have to cook, assume something that can be done in 30 minutes or less." ++
  "Structure all your recipe responses clearly using Markdown for formatting." ++
  "Begin every recipe response with the recipe name as a Level 2 Heading (e.g., ## Amazing Blueberry Muffins)." ++
  "Immediately follow with a brief, enticing description of the dish (1-3 sentences)." ++
  "Next, include a section titled ### Ingredients. List all ingredients using a Markdown unordered list (bullet points)." ++
  "Following ingredients, include a section titled ### Instructions. Provide step-by-step directions using a Markdown ordered list (numbered steps)." ++
  "Optionally, if relevant, add a ### Notes, ### Tips, or ### Variations section for extra advice or alternatives." ++
  "Example of desired Markdown structure for a recipe response:\n## Golden Pan-Fried Salmon\n\nA quick and delicious way to prepare salmon with a crispy skin and moist interior, perfect for a weeknight dinner.\n\n### Ingredients\n* 2 salmon fillets (approx. 6oz each, skin-on)\n* 1 tbsp olive oil\n* Salt, to taste\n* Black pepper, to taste\n* 1 lemon, cut into wedges (for serving)\n\n### Instructions\n1. Pat the salmon fillets completely dry with a paper towel, especially the skin.\n2. Season both sides of the salmon with salt and pepper.\n3. Heat olive oil in a non-stick skillet over medium-high heat until shimmering.\n4. Place salmon fillets skin-side down in the hot pan.\n5. Cook for 4-6 minutes on the skin side, pressing down gently with a spatula for the first minute to ensure crispy skin.\n6. Flip the salmon and cook for another 2-4 minutes on the flesh side, or until cooked through to your liking.\n7. Serve immediately with lemon wedges.\n\n### Tips\n* For extra flavor, add a clove of garlic (smashed) and a sprig of rosemary to the pan while cooking.\n* Ensure the pan is hot before adding the salmon for the best sear."

/-- The message `{"role": "system", "content": SYSTEM_PROMPT}` prepended by
the normalization step (`utils.py` line 70). -/
def systemMessage : Message :=
  { role := "system", content := SYSTEM_PROMPT }

/-- The normalization step of `get_agent_response` (`utils.py` lines 68-72):
`if not messages or messages[0]["role"] != "system":` prepend the system
message, `else` keep `messages` as is. The result is the local variable
`current_messages`, the effective history sent to the provider. -/
def current_messages (messages : List Message) : List Message :=
  match messages with
  | [] => [systemMessage] ++ messages
  | m :: _ =>
    if m.role ≠ "system" then [systemMessage] ++ messages
    else messages

/-- The extraction step (`utils.py` lines 79-82):
`completion["choices"][0]["message"]["content"].strip()`.
Subscripting an empty `choices` list raises `IndexError`; calling
`.strip()` on a `None` content raises `AttributeError`; otherwise the
content with surrounding whitespace stripped is returned. -/
def extractReplyContent (completion : Completion) : Except PyError String :=
  match completion.choices with
  | [] => Except.error PyError.indexError
  | choice :: _ =>
    match choice.message.content with
    | none => Except.error PyError.attributeError
    | some s => Except.ok s.trim

/-- `get_agent_response` (`utils.py` lines 51-86), with the external
`litellm.completion` call abstracted as `provider` (the model name it also
receives is a fixed configuration string that does not affect this
function's message handling). Any provider or extraction failure
propagates; on success the assistant reply is appended to
`current_messages`. -/
def get_agent_response (provider : List Message → Except PyError Completion)
    (messages : List Message) : Except PyError (List Message) := do
  let current := current_messages messages
  let completion ← provider current
  let assistant_reply_content ← extractReplyContent completion
  pure (current ++ [{ role := "assistant", content := assistant_reply_content }])

/-- The normalized history is the input either unchanged or with exactly
the system message consed on front. -/
theorem current_messages_cases (messages : List Message) :
    current_messages messages = messages ∨
      current_messages messages = systemMessage :: messages := by
  cases messages with
  | nil => right; rfl
  | cons m rest =>
    by_cases h : m.role = "system"
    · left; simp [current_messages, h]
    · right; simp [current_messages, h]

/-- On success, the result is the normalized history plus one assistant
message whose content is the trimmed reply. -/
theorem get_agent_response_ok (provider : List Message → Except PyError Completion)
    (messages out : List Message)
    (h : get_agent_response provider messages = Except.ok out) :
    ∃ s : String, out = current_messages messages ++ [{ role := "assistant", content := s }] := by
  unfold get_agent_response at h
  cases hp : provider (current_messages messages) with
  | error e => simp [hp, bind, Except.bind] at h
  | ok completion =>
    cases he : extractReplyContent completion with
    | error e => simp [hp, he, bind, Except.bind] at h
    | ok s =>
      refine ⟨s, ?_⟩
      simp [hp, he, bind, Except.bind, pure, Except.pure] at h
      exact h.symm

/-- C1: for every input list that is empty or whose first element's role is
not "system", normalization prepends exactly one message with role "system"
and content SYSTEM_PROMPT, and the input messages follow unchanged in
order. -/
theorem C1_default_prefixing (messages : List Message)
    (h : messages.head?.map Message.role ≠ some "system") :
    current_messages messages = systemMessage :: messages := by
  cases messages with
  | nil => rfl
  | cons m rest =>
    have h' : m.role ≠ "system" := by
      intro hr
      exact h (by simp [List.head?, hr])
    simp [current_messages, h']

/-- Witness for C1 at the spec's Scenario 2 input. -/
theorem C1_default_prefixing_witness :
    current_messages [⟨"user", "I have eggs and flour"⟩] =
      systemMessage :: [⟨"user", "I have eggs and flour"⟩] :=
  C1_default_prefixing [⟨"user", "I have eggs and flour"⟩] (by decide)

/-- C2: for every non-empty input whose first element already has role
"system", normalization returns the input exactly. -/
theorem C2_idempotent_prefixing (messages : List Message)
    (h : messages.head?.map Message.role = some "system") :
    current_messages messages = messages := by
  cases messages with
  | nil => simp at h
  | cons m rest =>
    have h' : m.role = "system" := by simpa [List.head?] using h
    simp [current_messages, h']

/-- Witness for C2 at the spec's Scenario 3 input. -/
theorem C2_idempotent_prefixing_witness :
    current_messages [⟨"system", "custom prompt"⟩, ⟨"user", "hi"⟩] =
      [⟨"system", "custom prompt"⟩, ⟨"user", "hi"⟩] :=
  C2_idempotent_prefixing [⟨"system", "custom prompt"⟩, ⟨"user", "hi"⟩] (by decide)

/-- C3: on every successful call the output is the effective history with
exactly one message appended: length is effective-history length + 1, the
prefix equals the effective history, and the last element has role
"assistant". -/
theorem C3_single_append (provider : List Message → Except PyError Completion)
    (messages out : List Message)
    (h : get_agent_response provider messages = Except.ok out) :
    out.length = (current_messages messages).length + 1 ∧
    out.dropLast = current_messages messages ∧
    out.getLast?.map Message.role = some "assistant" := by
  obtain ⟨s, hs⟩ := get_agent_response_ok provider messages out h
  subst hs
  refine ⟨by simp, ?_, ?_⟩
  · simp
  · simp

/-- Witness for C3: a provider returning one choice with content
" A reply. ". -/
theorem C3_single_append_witness :
    (current_messages [⟨"user", "hi"⟩] ++ [⟨"assistant", (" A reply. ").trim⟩] : List Message).length
        = (current_messages [⟨"user", "hi"⟩]).length + 1 ∧
    (current_messages [⟨"user", "hi"⟩] ++ [⟨"assistant", (" A reply. ").trim⟩] : List Message).dropLast
        = current_messages [⟨"user", "hi"⟩] ∧
    (current_messages [⟨"user", "hi"⟩] ++ [⟨"assistant", (" A reply. ").trim⟩] : List Message).getLast?.map Message.role
        = some "assistant" :=
  C3_single_append
    (fun _ => Except.ok { choices := [{ message := { content := some " A reply. " } }] })
    [⟨"user", "hi"⟩]
    (current_messages [⟨"user", "hi"⟩] ++ [⟨"assistant", (" A reply. ").trim⟩])
    (by rfl)

/-- C4: on success the appended assistant content equals the provider's
first choice content with surrounding whitespace stripped and nothing else
changed. -/
theorem C4_content_passthrough (provider : List Message → Except PyError Completion)
    (messages : List Message) (completion : Completion) (choice : Choice)
    (rest : List Choice) (s : String)
    (hp : provider (current_messages messages) = Except.ok completion)
    (hc : completion.choices = choice :: rest)
    (hs : choice.message.content = some s) :
    get_agent_response provider messages =
      Except.ok (current_messages messages ++ [{ role := "assistant", content := s.trim }]) := by
  unfold get_agent_response
  simp [hp, extractReplyContent, hc, hs, bind, Except.bind, pure, Except.pure]

/-- Witness for C4 with whitespace-padded provider content. -/
theorem C4_content_passthrough_witness :
    get_agent_response
        (fun _ => Except.ok { choices := [{ message := { content := some "  ## Omelette\n" } }] })
        [] =
      Except.ok (current_messages [] ++ [{ role := "assistant", content := ("  ## Omelette\n").trim }]) :=
  C4_content_passthrough
    (fun _ => Except.ok { choices := [{ message := { content := some "  ## Omelette\n" } }] })
    [] { choices := [{ message := { content := some "  ## Omelette\n" } }] }
    { message := { content := some "  ## Omelette\n" } } [] "  ## Omelette\n"
    rfl rfl rfl

/-- C5: if the provider call fails, the same error propagates and no
output list is produced: no retry, no fallback reply, no partial result. -/
theorem C5_error_propagation (provider : List Message → Except PyError Completion)
    (messages : List Message) (e : PyError)
    (hp : provider (current_messages messages) = Except.error e) :
    get_agent_response provider messages = Except.error e := by
  unfold get_agent_response
  simp [hp, bind, Except.bind]

/-- Witness for C5: a provider that raises is propagated verbatim. -/
theorem C5_error_propagation_witness :
    get_agent_response (fun _ => Except.error (PyError.providerError "connection refused")) [] =
      Except.error (PyError.providerError "connection refused") :=
  C5_error_propagation (fun _ => Except.error (PyError.providerError "connection refused"))
    [] (PyError.providerError "connection refused") rfl

/-- C6: a provider response with zero choices fails with the propagated
IndexError, and a first choice with null content fails with the propagated
AttributeError; neither case is specially detected or answered with a
default reply. -/
theorem C6_malformed_response (provider : List Message → Except PyError Completion)
    (messages : List Message) (completion : Completion)
    (hp : provider (current_messages messages) = Except.ok completion) :
    (completion.choices = [] →
      get_agent_response provider messages = Except.error PyError.indexError) ∧
    (∀ choice rest, completion.choices = choice :: rest → choice.message.content = none →
      get_agent_response provider messages = Except.error PyError.attributeError) := by
  constructor
  · intro hc
    unfold get_agent_response
    simp [hp, extractReplyContent, hc, bind, Except.bind]
  · intro choice rest hc hn
    unfold get_agent_response
    simp [hp, extractReplyContent, hc, hn, bind, Except.bind]

/-- Witness for C6: a provider returning an empty choices list. -/
theorem C6_malformed_response_witness :
    ((Completion.mk []).choices = [] →
      get_agent_response (fun _ => Except.ok (Completion.mk [])) [] =
        Except.error PyError.indexError) ∧
    (∀ choice rest, (Completion.mk []).choices = choice :: rest →
      choice.message.content = none →
      get_agent_response (fun _ => Except.ok (Completion.mk [])) [] =
        Except.error PyError.attributeError) :=
  C6_malformed_response (fun _ => Except.ok (Completion.mk [])) [] (Completion.mk []) rfl

/-- C7: the history actually sent to the provider, the normalized
effective history, is never empty and its first element has role
"system". -/
theorem C7_system_message_first (messages : List Message) :
    current_messages messages ≠ [] ∧
    (current_messages messages).head?.map Message.role = some "system" := by
  cases messages with
  | nil => exact ⟨by simp [current_messages], by simp [current_messages, systemMessage]⟩
  | cons m rest =>
    by_cases h : m.role = "system"
    · exact ⟨by simp [current_messages, h], by simp [current_messages, h, List.head?]⟩
    · exact ⟨by simp [current_messages, h], by simp [current_messages, h, systemMessage]⟩

/-- C8: messages of arbitrary role are passed through unchanged in
position and content: on success the output is the input block intact,
optionally preceded by the system message, plus the appended assistant
reply; no message is validated, rejected, or altered for its role. -/
theorem C8_role_trust (provider : List Message → Except PyError Completion)
    (messages out : List Message)
    (h : get_agent_response provider messages = Except.ok out) :
    ∃ s : String,
      out = messages ++ [{ role := "assistant", content := s }] ∨
      out = systemMessage :: (messages ++ [{ role := "assistant", content := s }]) := by
  obtain ⟨s, hs⟩ := get_agent_response_ok provider messages out h
  rcases current_messages_cases messages with hc | hc
  · exact ⟨s, Or.inl (by rw [hs, hc])⟩
  · exact ⟨s, Or.inr (by rw [hs, hc]; simp)⟩

/-- Witness for C8 with unknown role strings "tool" and "banana". -/
theorem C8_role_trust_witness :
    ∃ s : String,
      (current_messages [⟨"tool", "beep"⟩, ⟨"banana", "split"⟩] ++ [⟨"assistant", ("ok").trim⟩] : List Message)
          = [⟨"tool", "beep"⟩, ⟨"banana", "split"⟩] ++ [{ role := "assistant", content := s }] ∨
      (current_messages [⟨"tool", "beep"⟩, ⟨"banana", "split"⟩] ++ [⟨"assistant", ("ok").trim⟩] : List Message)
          = systemMessage :: ([⟨"tool", "beep"⟩, ⟨"banana", "split"⟩] ++ [{ role := "assistant", content := s }]) :=
  C8_role_trust (fun _ => Except.ok { choices := [{ message := { content := some "ok" } }] })
    [⟨"tool", "beep"⟩, ⟨"banana", "split"⟩]
    (current_messages [⟨"tool", "beep"⟩, ⟨"banana", "split"⟩] ++ [⟨"assistant", ("ok").trim⟩])
    (by rfl)

/-- C9: normalization is idempotent as a function on histories:
normalizing an already-normalized history changes nothing. -/
theorem C9_normalization_idempotent (h : List Message) :
    current_messages (current_messages h) = current_messages h := by
  cases h with
  | nil => simp [current_messages, systemMessage]
  | cons m rest =>
    by_cases hr : m.role = "system"
    · simp [current_messages, hr]
    · simp [current_messages, hr, systemMessage]

/-- C10: the result depends only on the input list and the provider's
response to the one history sent: two providers that agree on the
normalized history yield identical results, so no hidden state enters. -/
theorem C10_deterministic (p1 p2 : List Message → Except PyError Completion)
    (messages : List Message)
    (h : p1 (current_messages messages) = p2 (current_messages messages)) :
    get_agent_response p1 messages = get_agent_response p2 messages := by
  simp only [get_agent_response]
  rw [h]

/-- Witness for C10: two providers that differ away from the sent history
but agree on it produce the same call result. -/
theorem C10_deterministic_witness :
    get_agent_response (fun _ => Except.error PyError.indexError) [] =
      get_agent_response
        (fun hist => if hist = [] then Except.ok (Completion.mk []) else Except.error PyError.indexError)
        [] :=
  C10_deterministic (fun _ => Except.error PyError.indexError)
    (fun hist => if hist = [] then Except.ok (Completion.mk []) else Except.error PyError.indexError)
    [] (by rfl)
